import Mathlib

/-!
# PBKDF2 binding of bcrypto (`src/pbkdf2.cc`)

A shallow embedding of the two entry points `BPBKDF2::Derive` and
`BPBKDF2::DeriveAsync`.  A call is a pure function from the argument list
(and the collaborators it calls) to a completion together with the sequence
of collaborator calls the entry point made, in program order.
-/

namespace BPBKDF2

/-! ## Data model -/

/-- One `uint8_t`. -/
abbrev Byte := Nat

/-- A JavaScript number by its value: a finite double `m * 2 ^ e`, NaN, or an infinity. -/
inductive JSNumber
  | finite (m : Int) (e : Int)
  | nan
  | infinity (negative : Bool)
  deriving DecidableEq, Repr

/-- The JavaScript values an entry point can receive in `info[i]`. -/
inductive Value
  | undefined
  | null
  | boolean (b : Bool)
  | number (n : JSNumber)
  | string (s : String)
  | buffer (bytes : List Byte)
  | function (id : Nat)
  | object (id : Nat)
  deriving DecidableEq, Repr

/-- A digest descriptor as returned by `EVP_get_digestbyname`. -/
structure EVP_MD where
  nid : Nat
  md_size : Nat
  deriving DecidableEq, Repr

/-- The bytes behind a `uint8_t *`, addressed by offset from the pointer. -/
abbrev Mem := Nat → Byte

/-- The allocator as one call sees it: `malloc(size)` is `NULL` (`none`) or a
region whose prior contents are whatever the heap held. -/
abbrev Heap := Nat → Option Mem

/-- The collaborators of `pbkdf2.cc` that are linked in from elsewhere. -/
structure Env where
  /-- The digest lookup of OpenSSL: `const EVP_MD *EVP_get_digestbyname(const char *)`. -/
  EVP_get_digestbyname : String → Option EVP_MD
  /-- The core `bcrypto_pbkdf2(name, data, datalen, salt, saltlen, iter, key, keylen)`:
  the success flag and the contents of `key` after the call. -/
  bcrypto_pbkdf2 : String → List Byte → Nat → List Byte → Nat → Nat → Mem → Nat → Bool × Mem
  /-- The host constant `node::Buffer::kMaxLength`, the largest length a buffer can have. -/
  kMaxLength : Nat

/-- The arguments of `new BPBKDF2Worker(...)`, in the order the constructor receives them. -/
structure BPBKDF2Worker where
  dbuf : Value
  sbuf : Value
  md : EVP_MD
  data : List Byte
  datalen : Nat
  salt : List Byte
  saltlen : Nat
  iter : Nat
  keylen : Nat
  callback : Value
  deriving DecidableEq, Repr

/-- A collaborator call made by an entry point. -/
inductive Event
  | malloc (size : Nat)
  | free
  | bcrypto_pbkdf2 (name : String) (data : List Byte) (datalen : Nat)
      (salt : List Byte) (saltlen : Nat) (iter : Nat) (keylen : Nat)
  | NewBuffer (length : Nat)
  | EVP_get_digestbyname (name : String)
  | newWorker (w : BPBKDF2Worker)
  | AsyncQueueWorker (w : BPBKDF2Worker)
  | Call (callback : Value)
  deriving DecidableEq, Repr

/-- How a `NAN_METHOD` ends: with a return value (`undefined` unless set), with a
pending exception, or with the process terminated because `ToLocalChecked` met
an empty handle. -/
inductive Completion
  | returned (v : Value)
  | ThrowError (msg : String)
  | ThrowTypeError (msg : String)
  | abort
  deriving DecidableEq, Repr

/-! ## Host primitives -/

/-- The value of `info[i]`: `undefined` past the end of the argument list. -/
def arg (info : List Value) (i : Nat) : Value := info.getD i Value.undefined

/-- The test `v->IsString()`. -/
def IsString : Value → Bool
  | .string _ => true
  | _ => false

/-- The test `v->IsNumber()`. -/
def IsNumber : Value → Bool
  | .number _ => true
  | _ => false

/-- The test `v->IsFunction()`. -/
def IsFunction : Value → Bool
  | .function _ => true
  | _ => false

/-- The test `node::Buffer::HasInstance(v)`. -/
def HasInstance : Value → Bool
  | .buffer _ => true
  | _ => false

/-- The bytes at `node::Buffer::Data(v)`. -/
def Data : Value → List Byte
  | .buffer b => b
  | _ => []

/-- The count `node::Buffer::Length(v)`. -/
def Length : Value → Nat
  | .buffer b => b.length
  | _ => 0

/-- The integer part of the finite double `m * 2 ^ e`, rounded toward zero. -/
def truncate (m : Int) : Int → Int
  | Int.ofNat k => m * 2 ^ k
  | Int.negSucc k => Int.tdiv m (2 ^ (k + 1))

/-- The conversion `v->Uint32Value()` (ECMAScript ToUint32); the entry points
apply it only after `IsNumber()` held. -/
def Uint32Value : Value → Nat
  | .number (.finite m e) => (truncate m e % 2 ^ 32).toNat
  | _ => 0

/-- The C string seen through `const char *name = *Nan::Utf8String(v)`: the
characters of the string up to the first NUL. -/
def Utf8String : Value → String
  | .string s => String.mk (s.data.takeWhile (fun c => c ≠ Char.ofNat 0))
  | _ => ""

/-- The first `keylen` bytes at `key`. -/
def bytesAt (key : Mem) (keylen : Nat) : List Byte := (List.range keylen).map key

/-- The handle `Nan::NewBuffer((char *)key, keylen)`: a buffer over the first
`keylen` bytes at `key`, or the empty handle when `keylen` exceeds the largest
length the host allows for a buffer. -/
def NewBuffer (kMaxLength : Nat) (key : Mem) (keylen : Nat) : Option (List Byte) :=
  if keylen ≤ kMaxLength then some (bytesAt key keylen) else none

/-! ## The entry points -/

/-- The method `BPBKDF2::Derive` (pbkdf2.cc, lines 42-87). -/
def Derive (env : Env) (malloc : Heap) (info : List Value) : Completion × List Event :=
  if info.length < 5 then
    (.ThrowError "pbkdf2.derive() requires arguments.", [])
  else if !IsString (arg info 0) then
    (.ThrowTypeError "First argument must be a string.", [])
  else
    let kbuf := arg info 1
    if !HasInstance kbuf then
      (.ThrowTypeError "Second argument must be a buffer.", [])
    else
      let sbuf := arg info 2
      if !HasInstance sbuf then
        (.ThrowTypeError "Third argument must be a buffer.", [])
      else if !IsNumber (arg info 3) then
        (.ThrowTypeError "Fourth argument must be a number.", [])
      else if !IsNumber (arg info 4) then
        (.ThrowTypeError "Fifth argument must be a number.", [])
      else
        let name := Utf8String (arg info 0)
        let data := Data kbuf
        let datalen := Length kbuf % 2 ^ 32
        let salt := Data sbuf
        let saltlen := Length sbuf % 2 ^ 32
        let iter := Uint32Value (arg info 3)
        let keylen := Uint32Value (arg info 4)
        match malloc keylen with
        | none => (.ThrowError "Could not allocate key.", [.malloc keylen])
        | some key =>
          let r := env.bcrypto_pbkdf2 name data datalen salt saltlen iter key keylen
          if !r.1 then
            (.ThrowError "PBKDF2 failed.",
              [.malloc keylen,
               .bcrypto_pbkdf2 name data datalen salt saltlen iter keylen,
               .free])
          else
            match NewBuffer env.kMaxLength r.2 keylen with
            | some buf =>
              (.returned (.buffer buf),
                [.malloc keylen,
                 .bcrypto_pbkdf2 name data datalen salt saltlen iter keylen,
                 .NewBuffer keylen])
            | none =>
              (.abort,
                [.malloc keylen,
                 .bcrypto_pbkdf2 name data datalen salt saltlen iter keylen,
                 .NewBuffer keylen])

/-- The method `BPBKDF2::DeriveAsync` (pbkdf2.cc, lines 89-146). -/
def DeriveAsync (env : Env) (info : List Value) : Completion × List Event :=
  if info.length < 6 then
    (.ThrowError "pbkdf2.deriveAsync() requires arguments.", [])
  else if !IsString (arg info 0) then
    (.ThrowTypeError "First argument must be a string.", [])
  else
    let dbuf := arg info 1
    if !HasInstance dbuf then
      (.ThrowTypeError "Second argument must be a buffer.", [])
    else
      let sbuf := arg info 2
      if !HasInstance sbuf then
        (.ThrowTypeError "Third argument must be a buffer.", [])
      else if !IsNumber (arg info 3) then
        (.ThrowTypeError "Fourth argument must be a number.", [])
      else if !IsNumber (arg info 4) then
        (.ThrowTypeError "Fifth argument must be a number.", [])
      else if !IsFunction (arg info 5) then
        (.ThrowTypeError "Sixth argument must be a Function.", [])
      else
        let callback := arg info 5
        let name := Utf8String (arg info 0)
        match env.EVP_get_digestbyname name with
        | none =>
          (.ThrowTypeError "Could not allocate context.", [.EVP_get_digestbyname name])
        | some md =>
          let data := Data dbuf
          let datalen := Length dbuf % 2 ^ 32
          let salt := Data sbuf
          let saltlen := Length sbuf % 2 ^ 32
          let iter := Uint32Value (arg info 3)
          let keylen := Uint32Value (arg info 4)
          let worker : BPBKDF2Worker :=
            ⟨dbuf, sbuf, md, data, datalen, salt, saltlen, iter, keylen, callback⟩
          (.returned .undefined,
            [.EVP_get_digestbyname name, .newWorker worker, .AsyncQueueWorker worker])

/-! ## Collaborators defined outside `src/pbkdf2.cc` -/

/-- Modelled from the spec: the external collaborator interface of section 6,
`digestByName(name) -> PRF | not-found` and
`hmac(prf, key, message) -> bytes[prf.blockOutputSize]`; the digest
implementations are not part of this repository. -/
structure DigestLibrary where
  digestByName : String → Option EVP_MD
  hmac : EVP_MD → List Byte → List Byte → List Byte
  hmac_length : ∀ md key message, (hmac md key message).length = md.md_size

/-- Modelled from the spec: the error taxonomy of section 7. -/
inductive CoreError
  | UnknownAlgorithm
  | InvalidParameter
  | AllocationFailure
  | DigestComputationFailed
  deriving DecidableEq, Repr

/-- Modelled from the spec: `bigEndian32(i)`, the four bytes of the block index. -/
def bigEndian32 (i : Nat) : List Byte :=
  [i / 2 ^ 24 % 256, i / 2 ^ 16 % 256, i / 2 ^ 8 % 256, i % 256]

/-- Modelled from the spec: the bytewise XOR of two HMAC outputs. -/
def xorBytes (a b : List Byte) : List Byte := List.zipWith (fun x y => x ^^^ y) a b

/-- Modelled from the spec: `n` further rounds `Uj = HMAC(password, U(j-1))`
after `u`, folded into the running XOR `t`. -/
def foldU (lib : DigestLibrary) (prf : EVP_MD) (password : List Byte) :
    Nat → List Byte → List Byte → List Byte
  | 0, _, t => t
  | n + 1, u, t => foldU lib prf password n (lib.hmac prf password u)
      (xorBytes t (lib.hmac prf password u))

/-- Modelled from the spec: the block `T_i = U1 XOR U2 XOR ... XOR U_iterations`
with `U1 = HMAC(password, salt || bigEndian32(i))`. -/
def block (lib : DigestLibrary) (prf : EVP_MD) (password salt : List Byte)
    (iterations i : Nat) : List Byte :=
  foldU lib prf password (iterations - 1)
    (lib.hmac prf password (salt ++ bigEndian32 i))
    (lib.hmac prf password (salt ++ bigEndian32 i))

/-- Modelled from the spec: the PBKDF2 core of section 4.2,
`derive(prf, password, salt, iterations, keyLength) -> bytes[keyLength]`, failing
with `InvalidParameter` when `iterations == 0`, `keyLength == 0` or `keyLength`
exceeds `(2^32 - 1) * PRF_output_length`; otherwise `T_1 || ... || T_l`
truncated to `keyLength` bytes, `l = ceil(keyLength / hLen)`.  The repository's
own core is defined outside `src/pbkdf2.cc`. -/
def derive (lib : DigestLibrary) (prf : EVP_MD) (password salt : List Byte)
    (iterations keyLength : Nat) : Except CoreError (List Byte) :=
  if iterations = 0 ∨ keyLength = 0 ∨ keyLength > (2 ^ 32 - 1) * prf.md_size then
    .error .InvalidParameter
  else
    .ok (((List.range ((keyLength + prf.md_size - 1) / prf.md_size)).map
      (fun k => block lib prf password salt iterations (k + 1))).flatten.take keyLength)

/-- The memory at `key` after `out` was written from offset 0. -/
def store (key : Mem) (out : List Byte) : Mem := fun i => out.getD i (key i)

/-- Modelled from the spec: the function `bcrypto_pbkdf2` declared in
`pbkdf2/pbkdf2.h` and defined outside `src/pbkdf2.cc`: the digest registry
lookup of section 4.1 followed by the core of section 4.2 over the first
`datalen` bytes at `data` and the first `saltlen` bytes at `salt`; on success
the derived key is written to `key`, on any failure `key` is left as it was. -/
def bcrypto_pbkdf2 (lib : DigestLibrary) (name : String) (data : List Byte) (datalen : Nat)
    (salt : List Byte) (saltlen : Nat) (iter : Nat) (key : Mem) (keylen : Nat) : Bool × Mem :=
  match lib.digestByName name with
  | none => (false, key)
  | some md =>
    match derive lib md (data.take datalen) (salt.take saltlen) iter keylen with
    | .error _ => (false, key)
    | .ok out => (true, store key out)

/-- The collaborators of `pbkdf2.cc` when both the digest lookup and the core
are served by one digest library, on a host with the given largest buffer length. -/
def libraryEnv (lib : DigestLibrary) (kMaxLength : Nat) : Env :=
  ⟨lib.digestByName, bcrypto_pbkdf2 lib, kMaxLength⟩

/-- What the completion continuation of a Pending Job receives. -/
inductive Delivery
  | success (key : List Byte)
  | failure (e : CoreError)
  deriving DecidableEq, Repr

/-- Modelled from the spec: the background execution of a Pending Job and its
single completion (section 4.4; the worker class is defined outside
`src/pbkdf2.cc`): it runs the algorithm of section 4.2 on the digest, password
view, salt view, iteration count and key length the job holds and delivers the
Derived Key, or the failure; `allocated` says whether the output buffer could
be obtained. -/
def BPBKDF2Worker.complete (lib : DigestLibrary) (allocated : Bool) (w : BPBKDF2Worker) :
    Delivery :=
  if !allocated then .failure .AllocationFailure
  else
    match derive lib w.md (w.data.take w.datalen) (w.salt.take w.saltlen) w.iter w.keylen with
    | .error e => .failure e
    | .ok out => .success out

/-! ## Sample collaborators for evaluating the entry points -/

/-- A stand-in keyed function with the right output length, used only to run
the entry points on concrete inputs. -/
def sampleHmac (md : EVP_MD) (key message : List Byte) : List Byte :=
  (List.range md.md_size).map (fun i => (key.sum + 31 * message.sum + 7 * i + md.nid) % 256)

/-- A digest table with two entries and the stand-in keyed function. -/
def sampleLibrary : DigestLibrary where
  digestByName := fun name =>
    if name = "sha1" then some ⟨64, 20⟩
    else if name = "sha256" then some ⟨672, 32⟩
    else none
  hmac := sampleHmac
  hmac_length := by intro md key message; simp [sampleHmac]

/-- The sample collaborators on a host whose buffers hold at most `2 ^ 31 - 1` bytes. -/
def sampleEnv : Env := libraryEnv sampleLibrary (2 ^ 31 - 1)

/-- The sample collaborators on a host whose buffers hold up to `2 ^ 53 - 1` bytes. -/
def sampleEnvLarge : Env := libraryEnv sampleLibrary (2 ^ 53 - 1)

/-- A password of `2 ^ 32 + 2` zero bytes. -/
def longPassword : List Byte := List.replicate (2 ^ 32 + 2) 0

/-- An allocator that always succeeds and hands out memory filled with `fill`. -/
def heapOf (fill : Byte) : Heap := fun _ => some (fun _ => fill)

/-- An allocator that is out of memory. -/
def heapExhausted : Heap := fun _ => none

/-- A well-typed argument list: name, password, salt, iterations, key length, then `rest`. -/
def call (name : String) (password salt : List Byte) (iterations keyLength : JSNumber)
    (rest : List Value) : List Value :=
  .string name :: .buffer password :: .buffer salt :: .number iterations ::
    .number keyLength :: rest

/-- The JavaScript number with integer value `n`. -/
def num (n : Int) : JSNumber := .finite n 0

/-! ## Observations on the sequence of collaborator calls -/

/-- The workers constructed during a call, in order. -/
def constructed (trace : List Event) : List BPBKDF2Worker :=
  trace.filterMap (fun e => match e with
    | .newWorker w => some w
    | _ => none)

/-- The workers handed to `Nan::AsyncQueueWorker` during a call, in order. -/
def enqueued (trace : List Event) : List BPBKDF2Worker :=
  trace.filterMap (fun e => match e with
    | .AsyncQueueWorker w => some w
    | _ => none)

/-- The callbacks invoked during a call, in order. -/
def invoked (trace : List Event) : List Value :=
  trace.filterMap (fun e => match e with
    | .Call cb => some cb
    | _ => none)

/-- Whether a completion is a pending exception. -/
def Completion.isThrow : Completion → Bool
  | .ThrowError _ => true
  | .ThrowTypeError _ => true
  | _ => false

/-- All checks of `DeriveAsync`, as the specification lists them: at least six
arguments, string name, buffer password, buffer salt, numeric iterations,
numeric key length, function callback, resolvable digest. -/
def checksPass (env : Env) (info : List Value) : Prop :=
  6 ≤ info.length ∧ IsString (arg info 0) = true ∧ HasInstance (arg info 1) = true ∧
  HasInstance (arg info 2) = true ∧ IsNumber (arg info 3) = true ∧
  IsNumber (arg info 4) = true ∧ IsFunction (arg info 5) = true ∧
  (env.EVP_get_digestbyname (Utf8String (arg info 0))).isSome = true

/-- The position (1 to 5) of the first of the five leading arguments that
fails its type test, tested in order: string, buffer, buffer, number, number. -/
def firstBadArg (info : List Value) : Option Nat :=
  if IsString (arg info 0) = false then some 1
  else if HasInstance (arg info 1) = false then some 2
  else if HasInstance (arg info 2) = false then some 3
  else if IsNumber (arg info 3) = false then some 4
  else if IsNumber (arg info 4) = false then some 5
  else none

/-- The message of the type error for the argument at position `k`. -/
def typeErrorMessage : Nat → String
  | 1 => "First argument must be a string."
  | 2 => "Second argument must be a buffer."
  | 3 => "Third argument must be a buffer."
  | 4 => "Fourth argument must be a number."
  | _ => "Fifth argument must be a number."

/-- The core applied to the inputs of a call the way the specification writes
it: `bcrypto_pbkdf2(name, password, |password|, salt, |salt|, iterations, key, keyLength)`. -/
def coreOn (env : Env) (name : String) (password salt : List Byte) (it kl : JSNumber)
    (key : Mem) : Bool × Mem :=
  env.bcrypto_pbkdf2 (Utf8String (.string name)) password password.length salt salt.length
    (Uint32Value (.number it)) key (Uint32Value (.number kl))

/-- The record of that core call in the sequence of collaborator calls. -/
def coreCall (name : String) (password salt : List Byte) (it kl : JSNumber) : Event :=
  .bcrypto_pbkdf2 (Utf8String (.string name)) password password.length salt salt.length
    (Uint32Value (.number it)) (Uint32Value (.number kl))

/-- The core as `Derive` calls it: the two lengths pass through the casts to
`uint32_t` of lines 69 and 71. -/
def coreAsCalled (env : Env) (name : String) (password salt : List Byte) (it kl : JSNumber)
    (key : Mem) : Bool × Mem :=
  env.bcrypto_pbkdf2 (Utf8String (.string name)) password (password.length % 2 ^ 32) salt
    (salt.length % 2 ^ 32) (Uint32Value (.number it)) key (Uint32Value (.number kl))

/-- The record of the core call `Derive` makes. -/
def coreCallMade (name : String) (password salt : List Byte) (it kl : JSNumber) : Event :=
  .bcrypto_pbkdf2 (Utf8String (.string name)) password (password.length % 2 ^ 32) salt
    (salt.length % 2 ^ 32) (Uint32Value (.number it)) (Uint32Value (.number kl))

/-! ## The entry points on well-typed argument lists -/

theorem Derive_call (env : Env) (malloc : Heap) (name : String) (password salt : List Byte)
    (it kl : JSNumber) (rest : List Value) :
    Derive env malloc (call name password salt it kl rest) =
      match malloc (Uint32Value (.number kl)) with
      | none => (.ThrowError "Could not allocate key.", [.malloc (Uint32Value (.number kl))])
      | some key =>
        if (env.bcrypto_pbkdf2 (Utf8String (.string name)) password (password.length % 2 ^ 32)
            salt (salt.length % 2 ^ 32) (Uint32Value (.number it)) key
            (Uint32Value (.number kl))).1 = true then
          match NewBuffer env.kMaxLength
              (env.bcrypto_pbkdf2 (Utf8String (.string name)) password (password.length % 2 ^ 32)
                salt (salt.length % 2 ^ 32) (Uint32Value (.number it)) key
                (Uint32Value (.number kl))).2 (Uint32Value (.number kl)) with
          | some buf =>
            (.returned (.buffer buf),
              [.malloc (Uint32Value (.number kl)),
               .bcrypto_pbkdf2 (Utf8String (.string name)) password (password.length % 2 ^ 32)
                 salt (salt.length % 2 ^ 32) (Uint32Value (.number it))
                 (Uint32Value (.number kl)),
               .NewBuffer (Uint32Value (.number kl))])
          | none =>
            (.abort,
              [.malloc (Uint32Value (.number kl)),
               .bcrypto_pbkdf2 (Utf8String (.string name)) password (password.length % 2 ^ 32)
                 salt (salt.length % 2 ^ 32) (Uint32Value (.number it))
                 (Uint32Value (.number kl)),
               .NewBuffer (Uint32Value (.number kl))])
        else
          (.ThrowError "PBKDF2 failed.",
            [.malloc (Uint32Value (.number kl)),
             .bcrypto_pbkdf2 (Utf8String (.string name)) password (password.length % 2 ^ 32)
               salt (salt.length % 2 ^ 32) (Uint32Value (.number it)) (Uint32Value (.number kl)),
             .free]) := by
  simp only [Derive, call, arg, List.length_cons, List.getD_cons_zero, List.getD_cons_succ,
    IsString, HasInstance, IsNumber, Data, Length]
  have h5 : ¬ (rest.length + 1 + 1 + 1 + 1 + 1 < 5) := by omega
  simp only [h5, if_false, Bool.not_true, Bool.false_eq_true]
  cases malloc (Uint32Value (.number kl)) with
  | none => rfl
  | some key =>
    simp only
    cases (env.bcrypto_pbkdf2 (Utf8String (.string name)) password (password.length % 2 ^ 32)
      salt (salt.length % 2 ^ 32) (Uint32Value (.number it)) key (Uint32Value (.number kl))).1 <;>
      simp

theorem DeriveAsync_call (env : Env) (name : String) (password salt : List Byte)
    (it kl : JSNumber) (f : Nat) (rest : List Value) :
    DeriveAsync env (call name password salt it kl (.function f :: rest)) =
      match env.EVP_get_digestbyname (Utf8String (.string name)) with
      | none =>
        (.ThrowTypeError "Could not allocate context.",
          [.EVP_get_digestbyname (Utf8String (.string name))])
      | some md =>
        (.returned .undefined,
          [.EVP_get_digestbyname (Utf8String (.string name)),
           .newWorker ⟨.buffer password, .buffer salt, md, password, password.length % 2 ^ 32,
             salt, salt.length % 2 ^ 32, Uint32Value (.number it), Uint32Value (.number kl),
             .function f⟩,
           .AsyncQueueWorker ⟨.buffer password, .buffer salt, md, password,
             password.length % 2 ^ 32, salt, salt.length % 2 ^ 32, Uint32Value (.number it),
             Uint32Value (.number kl), .function f⟩]) := by
  simp only [DeriveAsync, call, arg, List.length_cons, List.getD_cons_zero, List.getD_cons_succ,
    IsString, HasInstance, IsNumber, IsFunction, Data, Length]
  have h6 : ¬ (rest.length + 1 + 1 + 1 + 1 + 1 + 1 < 6) := by omega
  simp only [h6, if_false, Bool.not_true, Bool.false_eq_true]

theorem Uint32Value_num (n : Nat) (h : n < 2 ^ 32) : Uint32Value (.number (num n)) = n := by
  have h1 : truncate (n : Int) 0 = (n : Int) := by
    show (n : Int) * 2 ^ 0 = (n : Int)
    simp
  have h2 : ((n : Int) % 2 ^ 32).toNat = n := by
    have h3 : ((n : Int) % 2 ^ 32) = ((n % 2 ^ 32 : Nat) : Int) := by
      norm_cast
    rw [h3, Int.toNat_ofNat, Nat.mod_eq_of_lt h]
  show (truncate (n : Int) 0 % 2 ^ 32).toNat = n
  rw [h1, h2]

theorem bytesAt_length (key : Mem) (keylen : Nat) : (bytesAt key keylen).length = keylen := by
  simp [bytesAt]

theorem bytesAt_get (key : Mem) (keylen i : Nat) (h : i < keylen) :
    (bytesAt key keylen)[i]? = some (key i) := by
  simp [bytesAt, List.getElem?_range h]

theorem NewBuffer_some (kMaxLength : Nat) (key : Mem) (keylen : Nat) (buf : List Byte)
    (h : NewBuffer kMaxLength key keylen = some buf) :
    keylen ≤ kMaxLength ∧ buf = bytesAt key keylen := by
  unfold NewBuffer at h
  split_ifs at h with hk
  simp only [Option.some.injEq] at h
  exact ⟨hk, h.symm⟩

theorem NewBuffer_of_le (kMaxLength : Nat) (key : Mem) (keylen : Nat) (h : keylen ≤ kMaxLength) :
    NewBuffer kMaxLength key keylen = some (bytesAt key keylen) := by
  simp [NewBuffer, h]

theorem Derive_few (env : Env) (malloc : Heap) (info : List Value) (h : info.length < 5) :
    Derive env malloc info = (.ThrowError "pbkdf2.derive() requires arguments.", []) := by
  simp [Derive, h]

theorem Derive_badArg (env : Env) (malloc : Heap) (info : List Value) (k : Nat)
    (h5 : 5 ≤ info.length) (hk : firstBadArg info = some k) :
    Derive env malloc info = (.ThrowTypeError (typeErrorMessage k), []) := by
  have hlen : ¬ info.length < 5 := by omega
  simp only [firstBadArg] at hk
  simp only [Derive, hlen, if_false]
  split_ifs at hk <;> cases hk <;> simp_all [typeErrorMessage]

theorem DeriveAsync_few (env : Env) (info : List Value) (h : info.length < 6) :
    DeriveAsync env info = (.ThrowError "pbkdf2.deriveAsync() requires arguments.", []) := by
  simp [DeriveAsync, h]

theorem DeriveAsync_badArg (env : Env) (info : List Value) (k : Nat)
    (h6 : 6 ≤ info.length) (hk : firstBadArg info = some k) :
    DeriveAsync env info = (.ThrowTypeError (typeErrorMessage k), []) := by
  have hlen : ¬ info.length < 6 := by omega
  simp only [firstBadArg] at hk
  simp only [DeriveAsync, hlen, if_false]
  split_ifs at hk <;> cases hk <;> simp_all [typeErrorMessage]

theorem DeriveAsync_badCallback (env : Env) (info : List Value)
    (h6 : 6 ≤ info.length) (hk : firstBadArg info = none) (hf : IsFunction (arg info 5) = false) :
    DeriveAsync env info = (.ThrowTypeError "Sixth argument must be a Function.", []) := by
  have hlen : ¬ info.length < 6 := by omega
  simp only [firstBadArg] at hk
  simp only [DeriveAsync, hlen, if_false]
  split_ifs at hk
  simp_all

theorem call_of_checks (info : List Value) (h5 : 5 ≤ info.length)
    (h : firstBadArg info = none) :
    ∃ name password salt it kl rest, info = call name password salt it kl rest := by
  match info, h5 with
  | a :: b :: c :: d :: e :: rest, _ =>
    simp only [firstBadArg, arg, List.getD_cons_zero, List.getD_cons_succ] at h
    split_ifs at h with h0 h1 h2 h3 h4
    cases a <;> simp [IsString] at h0
    cases b <;> simp [HasInstance] at h1
    cases c <;> simp [HasInstance] at h2
    cases d <;> simp [IsNumber] at h3
    cases e <;> simp [IsNumber] at h4
    exact ⟨_, _, _, _, _, _, rfl⟩

/-! ## Claims settled on `pbkdf2.cc` alone -/

/-- Claim C2: whenever the six arguments of `DeriveAsync` pass the type checks
and the digest lookup does not resolve the name, the call ends at once with a
pending exception, having made the lookup and nothing else: no worker is
constructed, none is enqueued, and the callback is not invoked. -/
theorem DeriveAsync_unknown_fails_fast (env : Env) (name : String) (password salt : List Byte)
    (it kl : JSNumber) (f : Nat) (rest : List Value)
    (h : env.EVP_get_digestbyname (Utf8String (.string name)) = none) :
    DeriveAsync env (call name password salt it kl (.function f :: rest)) =
        (.ThrowTypeError "Could not allocate context.",
          [.EVP_get_digestbyname (Utf8String (.string name))]) ∧
      (DeriveAsync env (call name password salt it kl (.function f :: rest))).1.isThrow = true ∧
      constructed (DeriveAsync env (call name password salt it kl (.function f :: rest))).2 = [] ∧
      enqueued (DeriveAsync env (call name password salt it kl (.function f :: rest))).2 = [] ∧
      invoked (DeriveAsync env (call name password salt it kl (.function f :: rest))).2 = [] := by
  rw [DeriveAsync_call, h]
  simp [Completion.isThrow, constructed, enqueued, invoked]

/-- Witness for C2 on the name `"md0"`, which the sample table does not hold. -/
theorem DeriveAsync_unknown_fails_fast_witness :
    DeriveAsync sampleEnv
        (call "md0" [112, 119] [115] (num 1) (num 20) [.function 1]) =
        (.ThrowTypeError "Could not allocate context.", [.EVP_get_digestbyname "md0"]) ∧
      (DeriveAsync sampleEnv
        (call "md0" [112, 119] [115] (num 1) (num 20) [.function 1])).1.isThrow = true ∧
      constructed (DeriveAsync sampleEnv
        (call "md0" [112, 119] [115] (num 1) (num 20) [.function 1])).2 = [] ∧
      enqueued (DeriveAsync sampleEnv
        (call "md0" [112, 119] [115] (num 1) (num 20) [.function 1])).2 = [] ∧
      invoked (DeriveAsync sampleEnv
        (call "md0" [112, 119] [115] (num 1) (num 20) [.function 1])).2 = [] :=
  DeriveAsync_unknown_fails_fast sampleEnv "md0" [112, 119] [115] (num 1)
    (num 20) 1 [] (by decide)

/-- Claim C5: whenever `Derive` returns a value, that value is a buffer whose
length is exactly the requested key length, the `Uint32Value` of the fifth
argument, whatever the digest size. -/
theorem Derive_length (env : Env) (malloc : Heap) (info : List Value) (v : Value)
    (h : (Derive env malloc info).1 = .returned v) :
    ∃ key, v = .buffer key ∧ key.length = Uint32Value (arg info 4) := by
  by_cases h5 : info.length < 5
  · rw [Derive_few env malloc info h5] at h
    exact absurd h (by simp)
  · cases hk : firstBadArg info with
    | some k =>
      rw [Derive_badArg env malloc info k (by omega) hk] at h
      exact absurd h (by simp)
    | none =>
      obtain ⟨name, password, salt, it, kl, rest, rfl⟩ := call_of_checks info (by omega) hk
      rw [Derive_call] at h
      have harg : arg (call name password salt it kl rest) 4 = .number kl := rfl
      rw [harg]
      cases hm : malloc (Uint32Value (.number kl)) with
      | none =>
        rw [hm] at h
        exact absurd h (by simp)
      | some key =>
        rw [hm] at h
        simp only at h
        split_ifs at h
        split at h
        · rename_i buf hbuf
          simp only [Completion.returned.injEq] at h
          rw [(NewBuffer_some _ _ _ _ hbuf).2] at h
          exact ⟨_, h.symm, bytesAt_length _ _⟩
        · exact absurd h (by simp)

/-- Witness for C5: 25 bytes from a 20-byte digest. -/
theorem Derive_length_witness :
    ∃ key, Value.buffer [90, 42, 62, 46, 218, 234, 230, 230, 234, 218, 46, 62, 42, 90, 102, 102,
        122, 106, 94, 46, 39, 229, 235, 253, 239] = .buffer key ∧
      key.length = Uint32Value (arg (call "sha1" [1, 2] [3] (num 2) (num 25) []) 4) :=
  Derive_length sampleEnv (heapOf 9)
    (call "sha1" [1, 2] [3] (num 2) (num 25) []) _ (by decide)


/-- Counterexample to C4: on the name `"md0"`, which no digest lookup resolves
here, `Derive` allocates the 20-byte key and calls the core before it fails. -/
theorem Derive_unknown_name_reaches_core :
    sampleLibrary.digestByName "md0" = none ∧
      Derive sampleEnv (heapOf 0)
        (call "md0" [112, 119] [115] (num 1) (num 20) []) =
        (.ThrowError "PBKDF2 failed.",
          [.malloc 20, .bcrypto_pbkdf2 "md0" [112, 119] 2 [115] 1 1 20, .free]) := by
  decide

/-- Claim C4, amended: `Derive` validates nothing about the algorithm name up
front and makes no digest lookup of its own.  For every well-typed call,
whether or not the name resolves, it first allocates `keyLength` bytes; if
that fails it throws `Could not allocate key.`; otherwise it calls the core
with the name as given, and only the core's failure report makes it free the
key and throw `PBKDF2 failed.`. -/
theorem Derive_defers_name_check (env : Env) (malloc : Heap) (name : String)
    (password salt : List Byte) (it kl : JSNumber) (rest : List Value) :
    (∀ n, Event.EVP_get_digestbyname n ∉ (Derive env malloc (call name password salt it kl rest)).2) ∧
      (Derive env malloc (call name password salt it kl rest)).2.head? =
        some (.malloc (Uint32Value (.number kl))) ∧
      (malloc (Uint32Value (.number kl)) = none →
        Derive env malloc (call name password salt it kl rest) =
          (.ThrowError "Could not allocate key.", [.malloc (Uint32Value (.number kl))])) ∧
      (∀ key, malloc (Uint32Value (.number kl)) = some key →
        (Derive env malloc (call name password salt it kl rest)).2.take 2 =
          [.malloc (Uint32Value (.number kl)),
           .bcrypto_pbkdf2 (Utf8String (.string name)) password (password.length % 2 ^ 32) salt
             (salt.length % 2 ^ 32) (Uint32Value (.number it)) (Uint32Value (.number kl))] ∧
        ((env.bcrypto_pbkdf2 (Utf8String (.string name)) password (password.length % 2 ^ 32) salt
            (salt.length % 2 ^ 32) (Uint32Value (.number it)) key
            (Uint32Value (.number kl))).1 = false →
          (Derive env malloc (call name password salt it kl rest)).1 =
              .ThrowError "PBKDF2 failed." ∧
            (Derive env malloc (call name password salt it kl rest)).2.getLast? =
              some .free)) := by
  rw [Derive_call]
  cases hm : malloc (Uint32Value (.number kl)) with
  | none => simp
  | some key =>
    simp only
    split_ifs with hc
    · cases NewBuffer env.kMaxLength (env.bcrypto_pbkdf2 (Utf8String (.string name)) password
        (password.length % 2 ^ 32) salt (salt.length % 2 ^ 32) (Uint32Value (.number it)) key
        (Uint32Value (.number kl))).2 (Uint32Value (.number kl)) <;> simp_all
    · simp_all

/-- Witness for the amended C4, on a name that does not resolve. -/
theorem Derive_defers_name_check_witness :
    (Derive sampleEnv (heapOf 0)
        (call "md0" [112, 119] [115] (num 1) (num 20) [])).1 = .ThrowError "PBKDF2 failed." ∧
      (Derive sampleEnv (heapOf 0)
        (call "md0" [112, 119] [115] (num 1) (num 20) [])).2.getLast? = some .free :=
  ((Derive_defers_name_check sampleEnv (heapOf 0) "md0" [112, 119] [115]
    (num 1) (num 20) []).2.2.2 (fun _ => 0) rfl).2 (by decide)


theorem call_of_checks6 (info : List Value) (h6 : 6 ≤ info.length)
    (h : firstBadArg info = none) (hf : IsFunction (arg info 5) = true) :
    ∃ name password salt it kl f rest,
      info = call name password salt it kl (.function f :: rest) := by
  obtain ⟨name, password, salt, it, kl, rest, rfl⟩ := call_of_checks info (by omega) h
  match rest, h6 with
  | x :: rest, _ =>
    have hx : arg (call name password salt it kl (x :: rest)) 5 = x := rfl
    rw [hx] at hf
    cases x <;> simp [IsFunction] at hf
    exact ⟨_, _, _, _, _, _, _, rfl⟩

theorem firstBadArg_none_iff (info : List Value) :
    firstBadArg info = none ↔
      IsString (arg info 0) = true ∧ HasInstance (arg info 1) = true ∧
      HasInstance (arg info 2) = true ∧ IsNumber (arg info 3) = true ∧
      IsNumber (arg info 4) = true := by
  simp only [firstBadArg]
  split_ifs <;> simp_all

/-- Claim C9: if every check of `DeriveAsync` passes, exactly one worker is
constructed, that same worker is passed to `Nan::AsyncQueueWorker` exactly
once, and the call returns `undefined` without invoking the callback; if any
check fails, the call ends with a pending exception and no worker is
constructed or enqueued. -/
theorem DeriveAsync_submits_once (env : Env) (info : List Value) :
    (checksPass env info →
        ∃ w, DeriveAsync env info =
            (.returned .undefined,
              [.EVP_get_digestbyname (Utf8String (arg info 0)), .newWorker w,
               .AsyncQueueWorker w]) ∧
          constructed (DeriveAsync env info).2 = [w] ∧
          enqueued (DeriveAsync env info).2 = [w] ∧
          invoked (DeriveAsync env info).2 = []) ∧
      (¬ checksPass env info →
        (DeriveAsync env info).1.isThrow = true ∧
          constructed (DeriveAsync env info).2 = [] ∧
          enqueued (DeriveAsync env info).2 = [] ∧
          invoked (DeriveAsync env info).2 = []) := by
  constructor
  · rintro ⟨h6, h0, h1, h2, h3, h4, h5, hmd⟩
    have hk : firstBadArg info = none := (firstBadArg_none_iff info).2 ⟨h0, h1, h2, h3, h4⟩
    obtain ⟨name, password, salt, it, kl, f, rest, rfl⟩ := call_of_checks6 info h6 hk h5
    have harg : arg (call name password salt it kl (.function f :: rest)) 0 = .string name := rfl
    rw [harg] at hmd ⊢
    rw [DeriveAsync_call]
    cases hl : env.EVP_get_digestbyname (Utf8String (.string name)) with
    | none => rw [hl] at hmd; exact absurd hmd (by simp)
    | some md => exact ⟨_, rfl, rfl, rfl, rfl⟩
  · intro hnot
    by_cases h6 : info.length < 6
    · rw [DeriveAsync_few env info h6]
      simp [Completion.isThrow, constructed, enqueued, invoked]
    · cases hk : firstBadArg info with
      | some k =>
        rw [DeriveAsync_badArg env info k (by omega) hk]
        simp [Completion.isThrow, constructed, enqueued, invoked]
      | none =>
        cases hf : IsFunction (arg info 5) with
        | false =>
          rw [DeriveAsync_badCallback env info (by omega) hk hf]
          simp [Completion.isThrow, constructed, enqueued, invoked]
        | true =>
          obtain ⟨name, password, salt, it, kl, f, rest, rfl⟩ :=
            call_of_checks6 info (by omega) hk hf
          rw [DeriveAsync_call]
          cases hl : env.EVP_get_digestbyname (Utf8String (.string name)) with
          | none => simp [Completion.isThrow, constructed, enqueued, invoked]
          | some md =>
            exfalso
            apply hnot
            obtain ⟨h0, h1, h2, h3, h4⟩ := (firstBadArg_none_iff _).1 hk
            refine ⟨by omega, h0, h1, h2, h3, h4, hf, ?_⟩
            have harg : arg (call name password salt it kl (.function f :: rest)) 0 =
              .string name := rfl
            rw [harg, hl]
            rfl

/-- Witness for C9: one call that passes every check, one whose salt is not a buffer. -/
theorem DeriveAsync_submits_once_witness :
    (∃ w, DeriveAsync sampleEnv
          (call "sha256" [112, 119] [115] (num 1000) (num 32) [.function 7]) =
          (.returned .undefined,
            [.EVP_get_digestbyname
               (Utf8String (arg (call "sha256" [112, 119] [115] (num 1000) (num 32)
                 [.function 7]) 0)),
             .newWorker w, .AsyncQueueWorker w]) ∧
        constructed (DeriveAsync sampleEnv
          (call "sha256" [112, 119] [115] (num 1000) (num 32) [.function 7])).2 = [w] ∧
        enqueued (DeriveAsync sampleEnv
          (call "sha256" [112, 119] [115] (num 1000) (num 32) [.function 7])).2 = [w] ∧
        invoked (DeriveAsync sampleEnv
          (call "sha256" [112, 119] [115] (num 1000) (num 32) [.function 7])).2 = []) ∧
      ((DeriveAsync sampleEnv
          [.string "sha256", .buffer [112, 119], .null, .number (num 1000), .number (num 32),
           .function 7]).1.isThrow = true ∧
        constructed (DeriveAsync sampleEnv
          [.string "sha256", .buffer [112, 119], .null, .number (num 1000), .number (num 32),
           .function 7]).2 = [] ∧
        enqueued (DeriveAsync sampleEnv
          [.string "sha256", .buffer [112, 119], .null, .number (num 1000), .number (num 32),
           .function 7]).2 = [] ∧
        invoked (DeriveAsync sampleEnv
          [.string "sha256", .buffer [112, 119], .null, .number (num 1000), .number (num 32),
           .function 7]).2 = []) :=
  ⟨(DeriveAsync_submits_once sampleEnv
      (call "sha256" [112, 119] [115] (num 1000) (num 32) [.function 7])).1
      (by unfold checksPass; decide),
   (DeriveAsync_submits_once sampleEnv
      [.string "sha256", .buffer [112, 119], .null, .number (num 1000), .number (num 32),
       .function 7]).2 (by unfold checksPass; decide)⟩


theorem Derive_take5 (env : Env) (malloc : Heap) (info : List Value) (h5 : 5 ≤ info.length) :
    Derive env malloc (info.take 5) = Derive env malloc info := by
  match info, h5 with
  | a :: b :: c :: d :: e :: rest, _ =>
    have h : ¬ (rest.length + 1 + 1 + 1 + 1 + 1 < 5) := by omega
    simp [Derive, arg, h]

theorem firstBadArg_take5 (info : List Value) (h5 : 5 ≤ info.length) :
    firstBadArg (info.take 5) = firstBadArg info := by
  match info, h5 with
  | a :: b :: c :: d :: e :: rest, _ => simp [firstBadArg, arg]

theorem Derive_typeError_inv (env : Env) (malloc : Heap) (info : List Value) (msg : String)
    (h : (Derive env malloc info).1 = .ThrowTypeError msg) :
    5 ≤ info.length ∧ ∃ k, firstBadArg info = some k ∧ msg = typeErrorMessage k := by
  by_cases h5 : info.length < 5
  · rw [Derive_few env malloc info h5] at h
    exact absurd h (by simp)
  · cases hk : firstBadArg info with
    | some k =>
      rw [Derive_badArg env malloc info k (by omega) hk] at h
      simp only [Completion.ThrowTypeError.injEq] at h
      exact ⟨by omega, k, rfl, h.symm⟩
    | none =>
      obtain ⟨name, password, salt, it, kl, rest, rfl⟩ := call_of_checks info (by omega) hk
      rw [Derive_call] at h
      cases hm : malloc (Uint32Value (.number kl)) with
      | none => rw [hm] at h; exact absurd h (by simp)
      | some key =>
        rw [hm] at h
        simp only at h
        split_ifs at h
        split at h <;> exact absurd h (by simp)

/-- Claim C10: `Derive` throws, having allocated nothing and called nothing,
when it gets fewer than five arguments and when one of the five leading
arguments fails its type test, the error naming the first that fails in the
order string, buffer, buffer, number, number; and on every argument list of
length at least six, whenever `Derive` throws a type error on the first five
arguments, `DeriveAsync` throws the type error with the same message, for the
same first failing argument, and equally without any collaborator call. -/
theorem argument_validation_parity (env : Env) (malloc : Heap) (info : List Value) :
    (info.length < 5 →
        Derive env malloc info = (.ThrowError "pbkdf2.derive() requires arguments.", [])) ∧
      (∀ k, 5 ≤ info.length → firstBadArg info = some k →
        Derive env malloc info = (.ThrowTypeError (typeErrorMessage k), [])) ∧
      (6 ≤ info.length → ∀ msg,
        (Derive env malloc (info.take 5)).1 = .ThrowTypeError msg →
          ∃ k, firstBadArg info = some k ∧ msg = typeErrorMessage k ∧
            Derive env malloc (info.take 5) = (.ThrowTypeError msg, []) ∧
            Derive env malloc info = (.ThrowTypeError msg, []) ∧
            DeriveAsync env info = (.ThrowTypeError msg, [])) := by
  refine ⟨Derive_few env malloc info, fun k h5 hk => Derive_badArg env malloc info k h5 hk, ?_⟩
  intro h6 msg h
  rw [Derive_take5 env malloc info (by omega)] at h ⊢
  obtain ⟨_, k, hk, hmsg⟩ := Derive_typeError_inv env malloc info msg h
  subst hmsg
  exact ⟨k, hk, rfl, Derive_badArg env malloc info k (by omega) hk,
    Derive_badArg env malloc info k (by omega) hk, DeriveAsync_badArg env info k h6 hk⟩

/-- Witness for C10: four arguments; a numeric name; a salt that is not a
buffer, with and without a sixth argument. -/
theorem argument_validation_parity_witness :
    Derive sampleEnv (heapOf 0)
        [.string "sha256", .buffer [112], .buffer [115], .number (num 1)] =
        (.ThrowError "pbkdf2.derive() requires arguments.", []) ∧
      Derive sampleEnv (heapOf 0)
        [.number (num 5), .null, .buffer [115], .number (num 1), .number (num 32)] =
        (.ThrowTypeError (typeErrorMessage 1), []) ∧
      (∃ k, firstBadArg [.string "sha256", .buffer [112], .string "salt", .number (num 1),
            .undefined, .function 3] = some k ∧
          "Third argument must be a buffer." = typeErrorMessage k ∧
          Derive sampleEnv (heapOf 0)
            (List.take 5 [.string "sha256", .buffer [112], .string "salt", .number (num 1),
              .undefined, .function 3]) =
            (.ThrowTypeError "Third argument must be a buffer.", []) ∧
          Derive sampleEnv (heapOf 0)
            [.string "sha256", .buffer [112], .string "salt", .number (num 1),
              .undefined, .function 3] =
            (.ThrowTypeError "Third argument must be a buffer.", []) ∧
          DeriveAsync sampleEnv
            [.string "sha256", .buffer [112], .string "salt", .number (num 1),
              .undefined, .function 3] =
            (.ThrowTypeError "Third argument must be a buffer.", [])) :=
  ⟨(argument_validation_parity sampleEnv (heapOf 0)
      [.string "sha256", .buffer [112], .buffer [115], .number (num 1)]).1 (by decide),
   (argument_validation_parity sampleEnv (heapOf 0)
      [.number (num 5), .null, .buffer [115], .number (num 1), .number (num 32)]).2.1 1
      (by decide) (by decide),
   (argument_validation_parity sampleEnv (heapOf 0)
      [.string "sha256", .buffer [112], .string "salt", .number (num 1), .undefined,
       .function 3]).2.2 (by decide) "Third argument must be a buffer." (by decide)⟩


/-! ## Claims that also depend on what the core reports -/

theorem bcrypto_pbkdf2_rejects_zero (lib : DigestLibrary) (name : String) (data : List Byte)
    (datalen : Nat) (salt : List Byte) (saltlen iter : Nat) (key : Mem) (keylen : Nat)
    (h : iter = 0 ∨ keylen = 0) :
    (bcrypto_pbkdf2 lib name data datalen salt saltlen iter key keylen).1 = false := by
  unfold bcrypto_pbkdf2
  cases lib.digestByName name with
  | none => rfl
  | some md =>
    have hd : derive lib md (data.take datalen) (salt.take saltlen) iter keylen =
        .error .InvalidParameter := by
      unfold derive
      rw [if_pos]
      rcases h with h | h
      · exact Or.inl h
      · exact Or.inr (Or.inl h)
    simp only [hd]

theorem bcrypto_pbkdf2_rejects_unknown (lib : DigestLibrary) (name : String) (data : List Byte)
    (datalen : Nat) (salt : List Byte) (saltlen iter : Nat) (key : Mem) (keylen : Nat)
    (h : lib.digestByName name = none) :
    (bcrypto_pbkdf2 lib name data datalen salt saltlen iter key keylen).1 = false := by
  unfold bcrypto_pbkdf2
  rw [h]

/-- Counterexample to C1: with a resolvable digest, `DeriveAsync` accepts zero
iterations, and equally a zero key length: it constructs a worker carrying the
zero, enqueues it and returns `undefined`. -/
theorem DeriveAsync_accepts_zero :
    DeriveAsync sampleEnv
        (call "sha256" [112, 119] [115] (num 0) (num 32) [.function 7]) =
        (.returned .undefined,
          [.EVP_get_digestbyname "sha256",
           .newWorker ⟨.buffer [112, 119], .buffer [115], ⟨672, 32⟩, [112, 119], 2, [115], 1,
             0, 32, .function 7⟩,
           .AsyncQueueWorker ⟨.buffer [112, 119], .buffer [115], ⟨672, 32⟩, [112, 119], 2,
             [115], 1, 0, 32, .function 7⟩]) ∧
      DeriveAsync sampleEnv
        (call "sha256" [112, 119] [115] (num 1000) (num 0) [.function 7]) =
        (.returned .undefined,
          [.EVP_get_digestbyname "sha256",
           .newWorker ⟨.buffer [112, 119], .buffer [115], ⟨672, 32⟩, [112, 119], 2, [115], 1,
             1000, 0, .function 7⟩,
           .AsyncQueueWorker ⟨.buffer [112, 119], .buffer [115], ⟨672, 32⟩, [112, 119], 2,
             [115], 1, 1000, 0, .function 7⟩]) := by
  decide

/-- Claim C1, amended: neither entry point checks the two numbers itself.  For
a well-typed call with `iterations = 0` or `keyLength = 0`, `Derive` allocates
the key and hands both numbers to the core; with a core that rejects a zero
iteration count and a zero key length it always throws, `Could not allocate
key.` when the allocation failed and the generic `PBKDF2 failed.` otherwise,
and returns no key.  `DeriveAsync` rejects nothing on account of the numbers:
if the name resolves it constructs one worker that carries both numbers
unchanged, enqueues it and returns; it throws before creating a worker only
if the name does not resolve. -/
theorem zero_parameters (env : Env) (malloc : Heap) (name : String) (password salt : List Byte)
    (it kl : JSNumber) (f : Nat) (rest rest2 : List Value)
    (hzero : Uint32Value (.number it) = 0 ∨ Uint32Value (.number kl) = 0)
    (hcore : ∀ n d dl s sl i key k, i = 0 ∨ k = 0 →
      (env.bcrypto_pbkdf2 n d dl s sl i key k).1 = false) :
    ((malloc (Uint32Value (.number kl)) = none ∧
          Derive env malloc (call name password salt it kl rest) =
            (.ThrowError "Could not allocate key.", [.malloc (Uint32Value (.number kl))])) ∨
        ((malloc (Uint32Value (.number kl))).isSome = true ∧
          Derive env malloc (call name password salt it kl rest) =
            (.ThrowError "PBKDF2 failed.",
              [.malloc (Uint32Value (.number kl)),
               .bcrypto_pbkdf2 (Utf8String (.string name)) password (password.length % 2 ^ 32)
                 salt (salt.length % 2 ^ 32) (Uint32Value (.number it))
                 (Uint32Value (.number kl)),
               .free]))) ∧
      (∀ md, env.EVP_get_digestbyname (Utf8String (.string name)) = some md →
        DeriveAsync env (call name password salt it kl (.function f :: rest2)) =
          (.returned .undefined,
            [.EVP_get_digestbyname (Utf8String (.string name)),
             .newWorker ⟨.buffer password, .buffer salt, md, password, password.length % 2 ^ 32,
               salt, salt.length % 2 ^ 32, Uint32Value (.number it), Uint32Value (.number kl),
               .function f⟩,
             .AsyncQueueWorker ⟨.buffer password, .buffer salt, md, password,
               password.length % 2 ^ 32, salt, salt.length % 2 ^ 32, Uint32Value (.number it),
               Uint32Value (.number kl), .function f⟩])) ∧
      (env.EVP_get_digestbyname (Utf8String (.string name)) = none →
        DeriveAsync env (call name password salt it kl (.function f :: rest2)) =
          (.ThrowTypeError "Could not allocate context.",
            [.EVP_get_digestbyname (Utf8String (.string name))])) := by
  refine ⟨?_, ?_, ?_⟩
  · rw [Derive_call]
    cases hm : malloc (Uint32Value (.number kl)) with
    | none => exact Or.inl ⟨rfl, rfl⟩
    | some key =>
      right
      simp only [hcore _ _ _ _ _ _ key _ hzero, Option.isSome_some, Bool.false_eq_true,
        if_false, and_self]
  · intro md hmd
    rw [DeriveAsync_call, hmd]
  · intro hnone
    rw [DeriveAsync_call, hnone]

/-- Witness for the amended C1: zero iterations against the sample core. -/
theorem zero_parameters_witness :
    Derive sampleEnv (heapOf 0)
        (call "sha256" [112, 119] [115] (num 0) (num 32) []) =
        (.ThrowError "PBKDF2 failed.",
          [.malloc 32, .bcrypto_pbkdf2 "sha256" [112, 119] 2 [115] 1 0 32, .free]) ∧
      DeriveAsync sampleEnv
        (call "sha256" [112, 119] [115] (num 0) (num 32) [.function 7]) =
        (.returned .undefined,
          [.EVP_get_digestbyname "sha256",
           .newWorker ⟨.buffer [112, 119], .buffer [115], ⟨672, 32⟩, [112, 119], 2, [115], 1,
             0, 32, .function 7⟩,
           .AsyncQueueWorker ⟨.buffer [112, 119], .buffer [115], ⟨672, 32⟩, [112, 119], 2,
             [115], 1, 0, 32, .function 7⟩]) :=
  have h := zero_parameters sampleEnv (heapOf 0) "sha256" [112, 119] [115]
    (num 0) (num 32) 7 [] [] (Or.inl (by decide))
    (fun n d dl s sl i key k hz => bcrypto_pbkdf2_rejects_zero sampleLibrary n d dl s sl i key k hz)
  ⟨h.1.resolve_left (fun hl => absurd hl.1 (by simp [heapOf])) |>.2, h.2.1 ⟨672, 32⟩ (by decide)⟩


/-- Counterexample to C3: for the unresolvable name `"md0"` the two entry
points report different errors, and the error of `Derive` is the one it also
reports for zero iterations under a resolvable name. -/
theorem unknown_name_errors_differ :
    sampleLibrary.digestByName "md0" = none ∧
      (Derive sampleEnv (heapOf 0)
        (call "md0" [112, 119] [115] (num 1) (num 20) [.function 7])).1 =
        .ThrowError "PBKDF2 failed." ∧
      (DeriveAsync sampleEnv
        (call "md0" [112, 119] [115] (num 1) (num 20) [.function 7])).1 =
        .ThrowTypeError "Could not allocate context." ∧
      (Derive sampleEnv (heapOf 0)
        (call "sha256" [112, 119] [115] (num 0) (num 20) [.function 7])).1 =
        .ThrowError "PBKDF2 failed." := by
  decide

/-- Claim C3, amended: for a name the digest lookup does not resolve both entry
points fail, but not with one common error.  `DeriveAsync` throws the type
error `Could not allocate context.` after the lookup and nothing else.
`Derive`, with a core that rejects unresolvable names, throws the error
`PBKDF2 failed.` once the key is allocated, which is the error it throws for
every failure the core reports, and `Could not allocate key.` when the
allocation fails; the completions of the two entry points differ. -/
theorem unknown_algorithm_errors (env : Env) (malloc : Heap) (name : String)
    (password salt : List Byte) (it kl : JSNumber) (f : Nat) (rest rest2 : List Value)
    (hname : env.EVP_get_digestbyname (Utf8String (.string name)) = none)
    (hcore : ∀ n d dl s sl i key k, env.EVP_get_digestbyname n = none →
      (env.bcrypto_pbkdf2 n d dl s sl i key k).1 = false) :
    DeriveAsync env (call name password salt it kl (.function f :: rest2)) =
        (.ThrowTypeError "Could not allocate context.",
          [.EVP_get_digestbyname (Utf8String (.string name))]) ∧
      ((malloc (Uint32Value (.number kl))).isSome = true →
        (Derive env malloc (call name password salt it kl rest)).1 =
          .ThrowError "PBKDF2 failed.") ∧
      (malloc (Uint32Value (.number kl)) = none →
        (Derive env malloc (call name password salt it kl rest)).1 =
          .ThrowError "Could not allocate key.") ∧
      (∀ name2 password2 salt2 it2 kl2 rest3 key2,
        malloc (Uint32Value (.number kl2)) = some key2 →
        (env.bcrypto_pbkdf2 (Utf8String (.string name2)) password2 (password2.length % 2 ^ 32)
          salt2 (salt2.length % 2 ^ 32) (Uint32Value (.number it2)) key2
          (Uint32Value (.number kl2))).1 = false →
        (Derive env malloc (call name2 password2 salt2 it2 kl2 rest3)).1 =
          .ThrowError "PBKDF2 failed.") ∧
      (Derive env malloc (call name password salt it kl rest)).1 ≠
        (DeriveAsync env (call name password salt it kl (.function f :: rest2))).1 := by
  have hasync := DeriveAsync_call env name password salt it kl f rest2
  rw [hname] at hasync
  have hsome : (malloc (Uint32Value (.number kl))).isSome = true →
      (Derive env malloc (call name password salt it kl rest)).1 =
        .ThrowError "PBKDF2 failed." := by
    intro hs
    rw [Derive_call]
    cases hm : malloc (Uint32Value (.number kl)) with
    | none => rw [hm] at hs; exact absurd hs (by simp)
    | some key => simp [hcore _ _ _ _ _ _ key _ hname]
  have hnone : malloc (Uint32Value (.number kl)) = none →
      (Derive env malloc (call name password salt it kl rest)).1 =
        .ThrowError "Could not allocate key." := by
    intro hm
    rw [Derive_call, hm]
  refine ⟨hasync, hsome, hnone, ?_, ?_⟩
  · intro name2 password2 salt2 it2 kl2 rest3 key2 hm hc
    rw [Derive_call, hm]
    simp only [hc, Bool.false_eq_true, if_false]
  · rw [hasync]
    cases hm : malloc (Uint32Value (.number kl)) with
    | none => rw [hnone hm]; simp
    | some key => rw [hsome (by simp [hm])]; simp

/-- Witness for the amended C3 on the name `"md0"`. -/
theorem unknown_algorithm_errors_witness :
    DeriveAsync sampleEnv
        (call "md0" [112, 119] [115] (num 1) (num 20) [.function 7]) =
        (.ThrowTypeError "Could not allocate context.", [.EVP_get_digestbyname "md0"]) ∧
      (Derive sampleEnv (heapOf 0)
        (call "md0" [112, 119] [115] (num 1) (num 20) [])).1 = .ThrowError "PBKDF2 failed." :=
  have h := unknown_algorithm_errors sampleEnv (heapOf 0) "md0" [112, 119]
    [115] (num 1) (num 20) 7 [] [] (by decide)
    (fun n d dl s sl i key k hn =>
      bcrypto_pbkdf2_rejects_unknown sampleLibrary n d dl s sl i key k hn)
  ⟨h.1, h.2.1 rfl⟩


/-! ## The core of section 4.2 writes exactly `keyLength` bytes -/

theorem xorBytes_length (a b : List Byte) (h : Nat) (ha : a.length = h) (hb : b.length = h) :
    (xorBytes a b).length = h := by
  simp [xorBytes, ha, hb]

theorem foldU_length (lib : DigestLibrary) (prf : EVP_MD) (password : List Byte) (n : Nat) :
    ∀ u t : List Byte, t.length = prf.md_size →
      (foldU lib prf password n u t).length = prf.md_size := by
  induction n with
  | zero => intro u t ht; simpa [foldU] using ht
  | succ n ih =>
    intro u t ht
    simp only [foldU]
    exact ih _ _ (xorBytes_length _ _ _ ht (lib.hmac_length _ _ _))

theorem block_length (lib : DigestLibrary) (prf : EVP_MD) (password salt : List Byte)
    (iterations i : Nat) : (block lib prf password salt iterations i).length = prf.md_size := by
  unfold block
  exact foldU_length lib prf password _ _ _ (lib.hmac_length _ _ _)

theorem flatten_length_of_const {α : Type} (h : Nat) (L : List (List α))
    (hL : ∀ x ∈ L, x.length = h) : L.flatten.length = L.length * h := by
  induction L with
  | nil => simp
  | cons x xs ih =>
    have hx : x.length = h := hL x (by simp)
    have hxs : xs.flatten.length = xs.length * h := ih (fun y hy => hL y (by simp [hy]))
    simp only [List.flatten_cons, List.length_append, List.length_cons, hx, hxs]
    rw [Nat.add_mul, Nat.one_mul, Nat.add_comm]

theorem le_ceil_mul (k h : Nat) (hpos : 0 < h) : k ≤ (k + h - 1) / h * h := by
  have h1 := Nat.div_add_mod (k + h - 1) h
  have h2 := Nat.mod_lt (k + h - 1) hpos
  rw [Nat.mul_comm] at h1
  omega

theorem derive_ok_length (lib : DigestLibrary) (prf : EVP_MD) (password salt : List Byte)
    (iterations keyLength : Nat) (out : List Byte)
    (h : derive lib prf password salt iterations keyLength = .ok out) :
    out.length = keyLength := by
  unfold derive at h
  split_ifs at h with hbad
  simp only [Except.ok.injEq] at h
  subst h
  have hk : keyLength ≠ 0 := fun hz => hbad (Or.inr (Or.inl hz))
  have hpos : 0 < prf.md_size := by
    rcases Nat.eq_zero_or_pos prf.md_size with h0 | h0
    · exact absurd (Or.inr (Or.inr (by rw [h0]; omega))) hbad
    · exact h0
  have hlen : ((List.range ((keyLength + prf.md_size - 1) / prf.md_size)).map
      (fun k => block lib prf password salt iterations (k + 1))).flatten.length =
      (keyLength + prf.md_size - 1) / prf.md_size * prf.md_size := by
    rw [flatten_length_of_const prf.md_size]
    · simp
    · intro x hx
      simp only [List.mem_map] at hx
      obtain ⟨k, _, rfl⟩ := hx
      exact block_length _ _ _ _ _ _
  rw [List.length_take, hlen]
  exact Nat.min_eq_left (le_ceil_mul keyLength prf.md_size hpos)

theorem derive_ok_of_valid (lib : DigestLibrary) (prf : EVP_MD) (password salt : List Byte)
    (iterations keyLength : Nat) (hi : 1 ≤ iterations) (hk : 1 ≤ keyLength)
    (hmax : keyLength ≤ (2 ^ 32 - 1) * prf.md_size) :
    ∃ out, derive lib prf password salt iterations keyLength = .ok out := by
  unfold derive
  rw [if_neg]
  · exact ⟨_, rfl⟩
  · rintro (h | h | h) <;> omega

theorem bytesAt_store (key : Mem) (out : List Byte) (keylen : Nat) (h : out.length = keylen) :
    bytesAt (store key out) keylen = out := by
  apply List.ext_getElem
  · simp [bytesAt, h]
  · intro i h1 h2
    simp [bytesAt, store, List.getElem?_eq_getElem h2]


theorem Derive_library_call (lib : DigestLibrary) (kMaxLength : Nat) (malloc : Heap)
    (name : String) (password salt : List Byte) (it kl : JSNumber) (rest : List Value)
    (key : Mem) (hm : malloc (Uint32Value (.number kl)) = some key) :
    Derive (libraryEnv lib kMaxLength) malloc (call name password salt it kl rest) =
      match (lib.digestByName (Utf8String (.string name))).bind (fun md =>
          (derive lib md (password.take (password.length % 2 ^ 32))
            (salt.take (salt.length % 2 ^ 32)) (Uint32Value (.number it))
            (Uint32Value (.number kl))).toOption) with
      | none =>
        (.ThrowError "PBKDF2 failed.",
          [.malloc (Uint32Value (.number kl)),
           .bcrypto_pbkdf2 (Utf8String (.string name)) password (password.length % 2 ^ 32)
             salt (salt.length % 2 ^ 32) (Uint32Value (.number it)) (Uint32Value (.number kl)),
           .free])
      | some out =>
        (if Uint32Value (.number kl) ≤ kMaxLength then .returned (.buffer out) else .abort,
          [.malloc (Uint32Value (.number kl)),
           .bcrypto_pbkdf2 (Utf8String (.string name)) password (password.length % 2 ^ 32)
             salt (salt.length % 2 ^ 32) (Uint32Value (.number it)) (Uint32Value (.number kl)),
           .NewBuffer (Uint32Value (.number kl))]) := by
  rw [Derive_call, hm]
  simp only [libraryEnv, bcrypto_pbkdf2]
  cases lib.digestByName (Utf8String (.string name)) with
  | none => simp
  | some md =>
    simp only [Option.some_bind]
    cases hd : derive lib md (password.take (password.length % 2 ^ 32))
        (salt.take (salt.length % 2 ^ 32)) (Uint32Value (.number it))
        (Uint32Value (.number kl)) with
    | error e => simp [Except.toOption]
    | ok out =>
      simp only [Except.toOption, if_true, NewBuffer,
        bytesAt_store key out _ (derive_ok_length _ _ _ _ _ _ _ hd)]
      split_ifs <;> rfl

theorem Derive_returned_alloc (env : Env) (malloc : Heap) (info : List Value) (v : Value)
    (h : (Derive env malloc info).1 = .returned v) :
    (malloc (Uint32Value (arg info 4))).isSome = true := by
  by_cases h5 : info.length < 5
  · rw [Derive_few env malloc info h5] at h
    exact absurd h (by simp)
  · cases hk : firstBadArg info with
    | some k =>
      rw [Derive_badArg env malloc info k (by omega) hk] at h
      exact absurd h (by simp)
    | none =>
      obtain ⟨name, password, salt, it, kl, rest, rfl⟩ := call_of_checks info (by omega) hk
      rw [Derive_call] at h
      have harg : arg (call name password salt it kl rest) 4 = .number kl := rfl
      rw [harg]
      cases hm : malloc (Uint32Value (.number kl)) with
      | none => rw [hm] at h; exact absurd h (by simp)
      | some key => rfl

theorem Derive_library_same (lib : DigestLibrary) (kMaxLength : Nat) (malloc1 malloc2 : Heap)
    (info : List Value)
    (h : (malloc1 (Uint32Value (arg info 4))).isSome = (malloc2 (Uint32Value (arg info 4))).isSome) :
    Derive (libraryEnv lib kMaxLength) malloc1 info =
      Derive (libraryEnv lib kMaxLength) malloc2 info := by
  by_cases h5 : info.length < 5
  · rw [Derive_few _ malloc1 info h5, Derive_few _ malloc2 info h5]
  · cases hk : firstBadArg info with
    | some k =>
      rw [Derive_badArg _ malloc1 info k (by omega) hk, Derive_badArg _ malloc2 info k (by omega) hk]
    | none =>
      obtain ⟨name, password, salt, it, kl, rest, rfl⟩ := call_of_checks info (by omega) hk
      have harg : arg (call name password salt it kl rest) 4 = .number kl := rfl
      rw [harg] at h
      cases h1 : malloc1 (Uint32Value (.number kl)) with
      | none =>
        cases h2 : malloc2 (Uint32Value (.number kl)) with
        | none => rw [Derive_call, Derive_call, h1, h2]
        | some key2 => rw [h1, h2] at h; exact absurd h (by simp)
      | some key1 =>
        cases h2 : malloc2 (Uint32Value (.number kl)) with
        | none => rw [h1, h2] at h; exact absurd h (by simp)
        | some key2 =>
          rw [Derive_library_call lib kMaxLength malloc1 _ _ _ _ _ _ key1 h1,
            Derive_library_call lib kMaxLength malloc2 _ _ _ _ _ _ key2 h2]

/-! ## Claims settled against the specified core and worker -/

/-- Counterexample to C8: the same five inputs, once with the allocator out of
memory and once not, end differently. -/
theorem Derive_outcome_depends_on_allocation :
    (Derive sampleEnv heapExhausted
        (call "sha1" [1, 2] [3] (num 2) (num 25) [])).1 = .ThrowError "Could not allocate key." ∧
      (Derive sampleEnv (heapOf 0)
        (call "sha1" [1, 2] [3] (num 2) (num 25) [])).1 =
        .returned (.buffer [90, 42, 62, 46, 218, 234, 230, 230, 234, 218, 46, 62, 42, 90, 102,
          102, 122, 106, 94, 46, 39, 229, 235, 253, 239]) := by
  decide

/-- Claim C8, amended: with the core of section 4.2, two calls of `Derive` on
the same arguments whose key allocations end alike (both succeed or both
fail) end alike, with the same completion and the same collaborator calls,
whatever the allocated memory held before; and whenever both calls return,
the two buffers are byte-identical.  A call whose allocation fails throws
`Could not allocate key.` instead. -/
theorem Derive_deterministic (lib : DigestLibrary) (kMaxLength : Nat) (malloc1 malloc2 : Heap)
    (info : List Value) :
    ((malloc1 (Uint32Value (arg info 4))).isSome = (malloc2 (Uint32Value (arg info 4))).isSome →
        Derive (libraryEnv lib kMaxLength) malloc1 info =
          Derive (libraryEnv lib kMaxLength) malloc2 info) ∧
      (∀ key1 key2,
        (Derive (libraryEnv lib kMaxLength) malloc1 info).1 = .returned (.buffer key1) →
        (Derive (libraryEnv lib kMaxLength) malloc2 info).1 = .returned (.buffer key2) →
        key1 = key2) := by
  refine ⟨Derive_library_same lib kMaxLength malloc1 malloc2 info, ?_⟩
  intro key1 key2 h1 h2
  have hs : (malloc1 (Uint32Value (arg info 4))).isSome =
      (malloc2 (Uint32Value (arg info 4))).isSome := by
    rw [Derive_returned_alloc _ _ _ _ h1, Derive_returned_alloc _ _ _ _ h2]
  rw [Derive_library_same lib kMaxLength malloc1 malloc2 info hs, h2] at h1
  simpa using h1.symm

/-- Witness for the amended C8: memory filled with 0 against memory filled with 255. -/
theorem Derive_deterministic_witness :
    Derive sampleEnv (heapOf 0) (call "sha1" [1, 2] [3] (num 2) (num 25) []) =
      Derive sampleEnv (heapOf 255)
        (call "sha1" [1, 2] [3] (num 2) (num 25) []) :=
  (Derive_deterministic sampleLibrary (2 ^ 31 - 1) (heapOf 0) (heapOf 255)
    (call "sha1" [1, 2] [3] (num 2) (num 25) [])).1 rfl


theorem longPassword_length : longPassword.length = 2 ^ 32 + 2 := by
  unfold longPassword
  exact List.length_replicate _ _

theorem Derive_long_trace (pw : List Byte) (h : pw.length = 2 ^ 32 + 2) :
    (Derive sampleEnvLarge (heapOf 0) (call "sha1" pw [115] (num 1) (num 20) [])).2 =
      [.malloc 20, .bcrypto_pbkdf2 "sha1" pw 2 [115] 1 1 20, .NewBuffer 20] := by
  have hlen : pw.length % 2 ^ 32 = 2 := by rw [h]; norm_num
  have hname : Utf8String (.string "sha1") = "sha1" := by decide
  have hit : Uint32Value (.number (num 1)) = 1 := by decide
  have hkl : Uint32Value (.number (num 20)) = 20 := by decide
  have hsalt : ([115] : List Byte).length % 2 ^ 32 = 1 := by decide
  have hmd : sampleLibrary.digestByName "sha1" = some ⟨64, 20⟩ := by decide
  obtain ⟨out, hout⟩ := derive_ok_of_valid sampleLibrary ⟨64, 20⟩ (pw.take 2)
    (([115] : List Byte).take 1) 1 20 (by decide) (by decide) (by decide)
  have hcore : sampleEnvLarge.bcrypto_pbkdf2 "sha1" pw 2 [115] 1 1 (fun _ => 0) 20 =
      (true, store (fun _ => 0) out) := by
    show bcrypto_pbkdf2 sampleLibrary "sha1" pw 2 [115] 1 1 (fun _ => 0) 20 = _
    unfold bcrypto_pbkdf2
    rw [hmd]
    simp only [hout]
  have hmax : sampleEnvLarge.kMaxLength = 2 ^ 53 - 1 := rfl
  have halloc : heapOf 0 20 = some (fun _ => 0) := rfl
  rw [Derive_call, hlen, hname, hit, hkl, hsalt, halloc]
  simp only [hcore, if_true]
  rw [NewBuffer_of_le _ _ _ (by rw [hmax]; norm_num)]

/-- Counterexample to C6: on a password of `2 ^ 32 + 2` bytes the core is
handed the count 2, not the length of the password; and two different
failures of the core, an unknown digest name and a zero iteration count, reach
the caller as one and the same error. -/
theorem Derive_changes_count_and_error :
    longPassword.length = 2 ^ 32 + 2 ∧
      (Derive sampleEnvLarge (heapOf 0) (call "sha1" longPassword [115] (num 1) (num 20) [])).2 =
        [.malloc 20, .bcrypto_pbkdf2 "sha1" longPassword 2 [115] 1 1 20, .NewBuffer 20] ∧
      sampleLibrary.digestByName "md0" = none ∧
      derive sampleLibrary ⟨64, 20⟩ [112, 119] [115] 0 20 = .error .InvalidParameter ∧
      (Derive sampleEnv (heapOf 0) (call "md0" [112, 119] [115] (num 1) (num 20) [])).1 =
        .ThrowError "PBKDF2 failed." ∧
      (Derive sampleEnv (heapOf 0) (call "sha1" [112, 119] [115] (num 0) (num 20) [])).1 =
        .ThrowError "PBKDF2 failed." := by
  exact ⟨longPassword_length, Derive_long_trace longPassword longPassword_length, by decide,
    rfl, by decide, by decide⟩

/-- Claim C6, amended: for a well-typed call whose key allocation succeeds,
`Derive` calls the core once, on the name, the password and salt bytes with
their lengths reduced modulo `2 ^ 32` (so the lengths themselves whenever both
are below `2 ^ 32`), and the iteration count and key length of the call (the
caller's own numbers when these are unsigned 32-bit integers).  If the core
reports success and the key length is within the largest buffer length of the
host, `Derive` returns exactly the `keyLength` bytes found at `key` after that
call.  If the core reports failure, `Derive` frees the key, returns no key and
throws the one error `PBKDF2 failed.`, whatever made the core fail. -/
theorem Derive_result (env : Env) (malloc : Heap) (name : String) (password salt : List Byte)
    (it kl : JSNumber) (rest : List Value) (key : Mem)
    (halloc : malloc (Uint32Value (.number kl)) = some key) :
    ((coreAsCalled env name password salt it kl key).1 = true →
        Uint32Value (.number kl) ≤ env.kMaxLength →
        Derive env malloc (call name password salt it kl rest) =
          (.returned (.buffer (bytesAt (coreAsCalled env name password salt it kl key).2
              (Uint32Value (.number kl)))),
            [.malloc (Uint32Value (.number kl)), coreCallMade name password salt it kl,
             .NewBuffer (Uint32Value (.number kl))]) ∧
        (bytesAt (coreAsCalled env name password salt it kl key).2
          (Uint32Value (.number kl))).length = Uint32Value (.number kl) ∧
        ∀ i, i < Uint32Value (.number kl) →
          (bytesAt (coreAsCalled env name password salt it kl key).2
              (Uint32Value (.number kl)))[i]? =
            some ((coreAsCalled env name password salt it kl key).2 i)) ∧
      ((coreAsCalled env name password salt it kl key).1 = false →
        Derive env malloc (call name password salt it kl rest) =
          (.ThrowError "PBKDF2 failed.",
            [.malloc (Uint32Value (.number kl)), coreCallMade name password salt it kl,
             .free])) ∧
      (password.length < 2 ^ 32 → salt.length < 2 ^ 32 →
        coreAsCalled env name password salt it kl key = coreOn env name password salt it kl key ∧
        coreCallMade name password salt it kl = coreCall name password salt it kl) ∧
      (∀ n : Nat, n < 2 ^ 32 → Uint32Value (.number (num n)) = n) := by
  refine ⟨?_, ?_, ?_, Uint32Value_num⟩
  · intro h hk
    refine ⟨?_, bytesAt_length _ _, fun i hi => bytesAt_get _ _ _ hi⟩
    rw [Derive_call, halloc]
    simp only [coreAsCalled, coreCallMade] at h ⊢
    simp only [h, if_true, NewBuffer_of_le _ _ _ hk]
  · intro h
    rw [Derive_call, halloc]
    simp only [coreAsCalled, coreCallMade] at h ⊢
    simp only [h, Bool.false_eq_true, if_false]
  · intro hp hs
    simp only [coreAsCalled, coreCallMade, coreOn, coreCall, Nat.mod_eq_of_lt hp,
      Nat.mod_eq_of_lt hs, and_self]

/-- Witness for the amended C6: 25 bytes in two iterations, and a core failure. -/
theorem Derive_result_witness :
    Derive sampleEnv (heapOf 9) (call "sha1" [1, 2] [3] (num 2) (num 25) []) =
        (.returned (.buffer [90, 42, 62, 46, 218, 234, 230, 230, 234, 218, 46, 62, 42, 90, 102,
            102, 122, 106, 94, 46, 39, 229, 235, 253, 239]),
          [.malloc 25, .bcrypto_pbkdf2 "sha1" [1, 2] 2 [3] 1 2 25, .NewBuffer 25]) ∧
      Derive sampleEnv (heapOf 9) (call "sha1" [1, 2] [3] (num 0) (num 25) []) =
        (.ThrowError "PBKDF2 failed.",
          [.malloc 25, .bcrypto_pbkdf2 "sha1" [1, 2] 2 [3] 1 0 25, .free]) :=
  ⟨((Derive_result sampleEnv (heapOf 9) "sha1" [1, 2] [3] (num 2) (num 25) []
      (fun _ => 9) rfl).1 (by decide) (by decide)).1,
   (Derive_result sampleEnv (heapOf 9) "sha1" [1, 2] [3] (num 0) (num 25) []
      (fun _ => 9) rfl).2.1 (by decide)⟩

/-- Claim C7: for valid inputs (a resolvable name, at least one iteration, a
key length of at least one byte and within the maximum for the digest) the
worker `DeriveAsync` enqueues carries the digest resolved from the name and
the password bytes, salt bytes, the two lengths as cast to `uint32_t`, the
iteration count and the key length, and these are what `Derive` passes to the
core (the caller's own numbers when they are unsigned 32-bit integers).  With
the core and the background execution of the specification, whatever bytes
are delivered to the completion equal whatever bytes `Derive` returns, and
both are produced whenever the key can be allocated and its length is within
the largest buffer length of the host. -/
theorem DeriveAsync_equivalent (lib : DigestLibrary) (kMaxLength : Nat) (malloc : Heap)
    (name : String) (password salt : List Byte) (it kl : JSNumber) (f : Nat)
    (rest rest2 : List Value) (md : EVP_MD)
    (hmd : lib.digestByName (Utf8String (.string name)) = some md)
    (hit : 1 ≤ Uint32Value (.number it)) (hkl : 1 ≤ Uint32Value (.number kl))
    (hmax : Uint32Value (.number kl) ≤ (2 ^ 32 - 1) * md.md_size) :
    ∃ w,
      DeriveAsync (libraryEnv lib kMaxLength)
          (call name password salt it kl (.function f :: rest2)) =
        (.returned .undefined,
          [.EVP_get_digestbyname (Utf8String (.string name)), .newWorker w,
           .AsyncQueueWorker w]) ∧
      w.md = md ∧ w.data = password ∧ w.datalen = password.length % 2 ^ 32 ∧ w.salt = salt ∧
      w.saltlen = salt.length % 2 ^ 32 ∧ w.iter = Uint32Value (.number it) ∧
      w.keylen = Uint32Value (.number kl) ∧ w.callback = .function f ∧
      (∀ key, malloc (Uint32Value (.number kl)) = some key →
        (Derive (libraryEnv lib kMaxLength) malloc (call name password salt it kl rest)).2.take 2 =
          [.malloc (Uint32Value (.number kl)),
           .bcrypto_pbkdf2 (Utf8String (.string name)) w.data w.datalen w.salt w.saltlen w.iter
             w.keylen]) ∧
      (∀ key1 key2 allocated,
        (Derive (libraryEnv lib kMaxLength) malloc (call name password salt it kl rest)).1 =
          .returned (.buffer key1) →
        w.complete lib allocated = .success key2 → key1 = key2) ∧
      (∀ key, malloc (Uint32Value (.number kl)) = some key →
        Uint32Value (.number kl) ≤ kMaxLength →
        ∃ out,
          Derive (libraryEnv lib kMaxLength) malloc (call name password salt it kl rest) =
            (.returned (.buffer out),
              [.malloc (Uint32Value (.number kl)),
               .bcrypto_pbkdf2 (Utf8String (.string name)) w.data w.datalen w.salt w.saltlen
                 w.iter w.keylen,
               .NewBuffer (Uint32Value (.number kl))]) ∧
          w.complete lib true = .success out ∧
          out.length = Uint32Value (.number kl)) ∧
      (∀ n : Nat, n < 2 ^ 32 → Uint32Value (.number (num n)) = n) := by
  obtain ⟨out, hout⟩ := derive_ok_of_valid lib md (password.take (password.length % 2 ^ 32))
    (salt.take (salt.length % 2 ^ 32)) _ _ hit hkl hmax
  have hsync : ∀ key, malloc (Uint32Value (.number kl)) = some key →
      Derive (libraryEnv lib kMaxLength) malloc (call name password salt it kl rest) =
        (if Uint32Value (.number kl) ≤ kMaxLength then .returned (.buffer out) else .abort,
          [.malloc (Uint32Value (.number kl)),
           .bcrypto_pbkdf2 (Utf8String (.string name)) password (password.length % 2 ^ 32) salt
             (salt.length % 2 ^ 32) (Uint32Value (.number it)) (Uint32Value (.number kl)),
           .NewBuffer (Uint32Value (.number kl))]) := by
    intro key halloc
    rw [Derive_library_call lib kMaxLength malloc _ _ _ _ _ _ key halloc]
    simp only [hmd, Option.some_bind, hout, Except.toOption]
  have hasync : ∀ allocated key2,
      BPBKDF2Worker.complete lib allocated ⟨.buffer password, .buffer salt, md, password,
        password.length % 2 ^ 32, salt, salt.length % 2 ^ 32, Uint32Value (.number it),
        Uint32Value (.number kl), .function f⟩ = .success key2 → out = key2 := by
    intro allocated key2 h2
    cases allocated with
    | false => simp [BPBKDF2Worker.complete] at h2
    | true =>
      simp only [BPBKDF2Worker.complete, Bool.not_true, Bool.false_eq_true, if_false, hout,
        Delivery.success.injEq] at h2
      exact h2
  refine ⟨⟨.buffer password, .buffer salt, md, password, password.length % 2 ^ 32, salt,
    salt.length % 2 ^ 32, Uint32Value (.number it), Uint32Value (.number kl), .function f⟩,
    ?_, rfl, rfl, rfl, rfl, rfl, rfl, rfl, rfl, ?_, ?_, ?_, Uint32Value_num⟩
  · rw [DeriveAsync_call]
    simp only [libraryEnv, hmd]
  · intro key halloc
    rw [hsync key halloc]
    rfl
  · intro key1 key2 allocated h1 h2
    have hal := Derive_returned_alloc _ _ _ _ h1
    have harg : arg (call name password salt it kl rest) 4 = .number kl := rfl
    rw [harg] at hal
    obtain ⟨key, hkey⟩ := Option.isSome_iff_exists.1 hal
    rw [hsync key hkey] at h1
    simp only at h1
    split_ifs at h1
    simp only [Completion.returned.injEq, Value.buffer.injEq] at h1
    rw [← h1]
    exact hasync allocated key2 h2
  · intro key halloc hk
    refine ⟨out, ?_, ?_, derive_ok_length _ _ _ _ _ _ _ hout⟩
    · rw [hsync key halloc, if_pos hk]
    · simp only [BPBKDF2Worker.complete, Bool.not_true, Bool.false_eq_true, if_false, hout]

/-- Witness for C7: 25 bytes from the 20-byte sample digest in two iterations. -/
theorem DeriveAsync_equivalent_witness :
    ∃ w,
      DeriveAsync sampleEnv (call "sha1" [1, 2] [3] (num 2) (num 25) [.function 7]) =
        (.returned .undefined,
          [.EVP_get_digestbyname "sha1", .newWorker w, .AsyncQueueWorker w]) ∧
      w.md = ⟨64, 20⟩ ∧ w.data = [1, 2] ∧ w.datalen = 2 ∧ w.salt = [3] ∧
      w.saltlen = 1 ∧ w.iter = 2 ∧ w.keylen = 25 ∧ w.callback = .function 7 ∧
      (∀ key, heapOf 9 25 = some key →
        (Derive sampleEnv (heapOf 9) (call "sha1" [1, 2] [3] (num 2) (num 25) [])).2.take 2 =
          [.malloc 25,
           .bcrypto_pbkdf2 "sha1" w.data w.datalen w.salt w.saltlen w.iter w.keylen]) ∧
      (∀ key1 key2 allocated,
        (Derive sampleEnv (heapOf 9) (call "sha1" [1, 2] [3] (num 2) (num 25) [])).1 =
          .returned (.buffer key1) →
        w.complete sampleLibrary allocated = .success key2 → key1 = key2) ∧
      (∀ key, heapOf 9 25 = some key → 25 ≤ 2 ^ 31 - 1 →
        ∃ out,
          Derive sampleEnv (heapOf 9) (call "sha1" [1, 2] [3] (num 2) (num 25) []) =
            (.returned (.buffer out),
              [.malloc 25,
               .bcrypto_pbkdf2 "sha1" w.data w.datalen w.salt w.saltlen w.iter w.keylen,
               .NewBuffer 25]) ∧
          w.complete sampleLibrary true = .success out ∧
          out.length = 25) ∧
      (∀ n : Nat, n < 2 ^ 32 → Uint32Value (.number (num n)) = n) :=
  DeriveAsync_equivalent sampleLibrary (2 ^ 31 - 1) (heapOf 9) "sha1" [1, 2] [3] (num 2)
    (num 25) 7 [] [] ⟨64, 20⟩ (by decide) (by decide) (by decide) (by decide)

end BPBKDF2
